import Mathlib

/-!
Verification of the simplestclaw repository: a shallow embedding of its
sidecar process supervisor and HTTP health endpoint, and of the desktop
application's store and screen handlers, with theorems settling the
specification claims against the code.
-/

set_option maxRecDepth 4000

/-! ## Sidecar (server.js): health endpoint and gateway supervision -/

/-- The fixed port the gateway child process is launched on
(`const OPENCLAW_PORT = 18789`). -/
def OPENCLAW_PORT : Nat := 18789

/-- A JSON value, as produced by `JSON.stringify` of the object literals in
the sidecar: objects keep insertion order of their fields. -/
inductive Json where
  | str (s : String)
  | num (n : Nat)
  | obj (fields : List (String × Json))

/-- Whether a JSON object carries a field with the given key. -/
def Json.hasField : Json → String → Bool
  | Json.obj fields, k => fields.any (fun kv => kv.fst == k)
  | _, _ => false

/-- An HTTP response of the sidecar server: either a JSON body with a status
code, or a redirect with a Location header. -/
inductive HttpResponse where
  | json (status : Nat) (body : Json)
  | redirect (status : Nat) (location : String)

/-- Whether a response is a redirect. -/
def HttpResponse.isRedirectResp : HttpResponse → Bool
  | HttpResponse.redirect _ _ => true
  | _ => false

/-- Body sent on `/health` when `openclawHealthy` is true:
`JSON.stringify` of status ok, openclaw running, wsPort 18789. -/
def healthyBody : Json :=
  Json.obj [("status", Json.str "ok"), ("openclaw", Json.str "running"),
            ("wsPort", Json.num OPENCLAW_PORT)]

/-- Body sent on `/health` when `openclawHealthy` is false. -/
def startingBody : Json := Json.obj [("status", Json.str "starting")]

/-- The sidecar request handler (`http.createServer((req, res) => ...)`):
`/health` and `/` answer with the health JSON (200 when healthy, 503
otherwise); every other path is answered with a 302 redirect to the same
path on the gateway port. -/
def handleRequest (url : String) (healthy : Bool) : HttpResponse :=
  if url == "/health" || url == "/" then
    if healthy then HttpResponse.json 200 healthyBody
    else HttpResponse.json 503 startingBody
  else
    HttpResponse.redirect 302 ("http://localhost:" ++ toString OPENCLAW_PORT ++ url)

/-- Prefix check on character lists: does the second list start with the
first one? Helper for the JS `String.prototype.includes` model. -/
def chStarts : List Char → List Char → Bool
  | [], _ => true
  | _ :: _, [] => false
  | p :: ps, c :: cs => p == c && chStarts ps cs

/-- Substring occurrence on character lists: does the pattern occur
somewhere in the text? -/
def chHasSub (pat : List Char) : List Char → Bool
  | [] => chStarts pat []
  | c :: cs => chStarts pat (c :: cs) || chHasSub pat cs

/-- Model of JavaScript `s.includes(pat)`. -/
def jsIncludes (s pat : String) : Bool := chHasSub pat.toList s.toList

/-- Delay before a respawn after the child exits
(`setTimeout(startOpenClaw, 5000)`). -/
def RESTART_DELAY_MS : Nat := 5000

/-- Delay after which the sidecar marks itself healthy unconditionally
(`setTimeout(() => { openclawHealthy = true; }, 3000)`). -/
def STARTUP_DELAY_MS : Nat := 3000

/-- The sidecar's mutable supervision state: the `openclawHealthy` flag and,
for reasoning about the restart policy, the number of spawns performed. -/
structure SidecarState where
  healthy : Bool
  spawns : Nat

/-- Events delivered to the sidecar's handlers: stdout/stderr data chunks,
the child `close` event, and the two timers it schedules. -/
inductive SidecarEvent where
  | stdoutData (chunk : String)
  | stderrData (chunk : String)
  | closeChild (code : Int)
  | startupTimer
  | restartTimer

/-- `startOpenClaw()`: spawns the child (counted in `spawns`) and schedules
the unconditional 3-second healthy timer. -/
def startOpenClaw (s : SidecarState) : SidecarState × List (Nat × SidecarEvent) :=
  ({ s with spawns := s.spawns + 1 }, [(STARTUP_DELAY_MS, SidecarEvent.startupTimer)])

/-- One step of the sidecar's event handlers, returning the new state and
the timers scheduled by the handler (delay in milliseconds, event fired). -/
def sidecarStep (s : SidecarState) (e : SidecarEvent) :
    SidecarState × List (Nat × SidecarEvent) :=
  match e with
  | SidecarEvent.stdoutData chunk =>
      if jsIncludes chunk "listening" || jsIncludes chunk "started" then
        ({ s with healthy := true }, [])
      else (s, [])
  | SidecarEvent.stderrData _ => (s, [])
  | SidecarEvent.closeChild _ =>
      ({ s with healthy := false }, [(RESTART_DELAY_MS, SidecarEvent.restartTimer)])
  | SidecarEvent.restartTimer => startOpenClaw s
  | SidecarEvent.startupTimer => ({ s with healthy := true }, [])

/-! ### Sidecar theorems -/

/-- C1: a request to `/health` is answered with status 200 and a JSON body
carrying the fields status, openclaw and wsPort when the gateway is marked
healthy, and with status 503 and body with the single field
status = "starting" when it is not. -/
theorem c1_health_endpoint :
    handleRequest "/health" true = HttpResponse.json 200 healthyBody ∧
    healthyBody.hasField "status" = true ∧
    healthyBody.hasField "openclaw" = true ∧
    healthyBody.hasField "wsPort" = true ∧
    handleRequest "/health" false = HttpResponse.json 503 startingBody ∧
    startingBody = Json.obj [("status", Json.str "starting")] :=
  ⟨rfl, rfl, rfl, rfl, rfl, rfl⟩

/-- C2 counterexample: the claim says every path other than `/health` is
redirected, but the root path `/` receives the health JSON response, not a
redirect. -/
theorem c2_root_counterexample :
    handleRequest "/" true = HttpResponse.json 200 healthyBody ∧
    (handleRequest "/" true).isRedirectResp = false :=
  ⟨rfl, rfl⟩

/-- C2 (amended): every request whose path is neither `/health` nor `/` is
answered with a 302 redirect to the same path on the gateway's own port
18789. -/
theorem c2_redirect (url : String) (healthy : Bool)
    (h1 : url ≠ "/health") (h2 : url ≠ "/") :
    handleRequest url healthy =
      HttpResponse.redirect 302 ("http://localhost:" ++ toString OPENCLAW_PORT ++ url) ∧
    OPENCLAW_PORT = 18789 := by
  refine ⟨?_, rfl⟩
  have hc : (url == "/health" || url == "/") = false := by
    simp [h1, h2]
  simp [handleRequest, hc]

/-- Witness for C2: the concrete path `/dashboard` is redirected. -/
theorem c2_redirect_witness :
    handleRequest "/dashboard" true =
      HttpResponse.redirect 302 ("http://localhost:" ++ toString OPENCLAW_PORT ++ "/dashboard") ∧
    OPENCLAW_PORT = 18789 :=
  c2_redirect "/dashboard" true (by decide) (by decide)

/-- C3: when the child process closes, the sidecar marks itself unhealthy
and schedules a respawn after exactly `RESTART_DELAY_MS` = 5000 ms; the
scheduled delay is the same for every state (so for every restart count,
with no backoff growth and no restart limit), and the restart timer spawns
the gateway again and rearms the startup timer. -/
theorem c3_restart_policy (s : SidecarState) (code : Int) :
    (sidecarStep s (SidecarEvent.closeChild code)).1.healthy = false ∧
    (sidecarStep s (SidecarEvent.closeChild code)).2 =
      [(RESTART_DELAY_MS, SidecarEvent.restartTimer)] ∧
    RESTART_DELAY_MS = 5000 ∧
    (sidecarStep s SidecarEvent.restartTimer).1.spawns = s.spawns + 1 ∧
    (sidecarStep s SidecarEvent.restartTimer).2 =
      [(STARTUP_DELAY_MS, SidecarEvent.startupTimer)] :=
  ⟨rfl, rfl, rfl, rfl, rfl⟩

/-- C4: a stdout data chunk containing the marker substring "listening" or
"started" makes the sidecar mark itself healthy. -/
theorem c4_marker_healthy (s : SidecarState) (chunk : String)
    (h : jsIncludes chunk "listening" = true ∨ jsIncludes chunk "started" = true) :
    (sidecarStep s (SidecarEvent.stdoutData chunk)).1.healthy = true := by
  rcases h with h | h <;> simp [sidecarStep, h]

/-- Witness for C4: a concrete chunk carrying the "listening" marker. -/
theorem c4_marker_healthy_witness :
    (sidecarStep ⟨false, 1⟩
        (SidecarEvent.stdoutData "Gateway listening on port 18789")).1.healthy = true :=
  c4_marker_healthy ⟨false, 1⟩ "Gateway listening on port 18789" (Or.inl (by decide))

/-- C8: every spawn attempt schedules the unconditional startup timer at
`STARTUP_DELAY_MS` = 3000 ms, and when it fires the sidecar is healthy
regardless of the prior state (no stdout marker needed), so `/health` then
answers 200. -/
theorem c8_startup_timer (s : SidecarState) :
    (startOpenClaw s).2 = [(STARTUP_DELAY_MS, SidecarEvent.startupTimer)] ∧
    STARTUP_DELAY_MS = 3000 ∧
    (sidecarStep s SidecarEvent.startupTimer).1.healthy = true ∧
    handleRequest "/health" (sidecarStep s SidecarEvent.startupTimer).1.healthy =
      HttpResponse.json 200 healthyBody :=
  ⟨rfl, rfl, rfl, rfl⟩

/-! ## Desktop app: store (store.ts) and Settings/Loading handlers -/

/-- The three application screens (`AppScreen` in store.ts). -/
inductive AppScreen where
  | loading
  | settings
  | chat
deriving DecidableEq

/-- Connection details of a running gateway (`GatewayInfo` in store.ts). -/
structure GatewayInfo where
  url : String
  port : Nat
  token : String
deriving DecidableEq

/-- `GatewayStatus` in store.ts: a tagged variant. -/
inductive GatewayStatus where
  | stopped
  | starting
  | running (info : GatewayInfo)
  | error (message : String)
deriving DecidableEq

/-- `RuntimeStatus` in store.ts; the JS `progress` number is modelled as an
integer (`Math.round` on it is then the identity). -/
inductive RuntimeStatus where
  | checking
  | downloading (progress : Int)
  | installed (version : String)
  | error (message : String)
deriving DecidableEq

/-- `runtimeStatus.type === 'installed'`. -/
def RuntimeStatus.isInstalled : RuntimeStatus → Bool
  | RuntimeStatus.installed _ => true
  | _ => false

/-- The zustand store's state (`AppState` in store.ts, data fields only). -/
structure StoreState where
  screen : AppScreen
  gatewayStatus : GatewayStatus
  runtimeStatus : RuntimeStatus
  apiKeyConfigured : Bool
  error : Option String
deriving DecidableEq

/-- The store's initial state in `create<AppState>((set) => ({...}))`. -/
def initialState : StoreState :=
  { screen := AppScreen.loading, gatewayStatus := GatewayStatus.stopped,
    runtimeStatus := RuntimeStatus.checking, apiKeyConfigured := false,
    error := none }

/-- `setScreen: (screen) => set({ screen })`. -/
def setScreen (st : StoreState) (screen : AppScreen) : StoreState :=
  { st with screen := screen }

/-- `setGatewayStatus: (gatewayStatus) => set({ gatewayStatus })`. -/
def setGatewayStatus (st : StoreState) (gatewayStatus : GatewayStatus) : StoreState :=
  { st with gatewayStatus := gatewayStatus }

/-- `setRuntimeStatus: (runtimeStatus) => set({ runtimeStatus })`. -/
def setRuntimeStatus (st : StoreState) (runtimeStatus : RuntimeStatus) : StoreState :=
  { st with runtimeStatus := runtimeStatus }

/-- `setApiKeyConfigured: (apiKeyConfigured) => set({ apiKeyConfigured })`. -/
def setApiKeyConfigured (st : StoreState) (apiKeyConfigured : Bool) : StoreState :=
  { st with apiKeyConfigured := apiKeyConfigured }

/-- `setError: (error) => set({ error })`. -/
def setError (st : StoreState) (error : Option String) : StoreState :=
  { st with error := error }

/-- Model of JavaScript `s.trim()`: drop whitespace from both ends. -/
def jsTrim (s : String) : String :=
  String.mk (((s.toList.dropWhile Char.isWhitespace).reverse.dropWhile
    Char.isWhitespace).reverse)

/-- The tauri bridge calls `handleSave` can issue. -/
inductive TauriCall where
  | setApiKeyCall (key : String)
  | startGatewayCall
deriving DecidableEq

/-- `handleSave` in Settings.tsx, as a function of the current store state,
the entered API key, and the outcomes of the two awaited tauri calls
(a thrown error is its message string). Returns the resulting store state
and the list of tauri calls issued, in order. The local `saving` flag is
component state, not store state, and is omitted. -/
def handleSave (st : StoreState) (apiKey : String)
    (setApiKeyResult : Except String Unit)
    (startGatewayResult : Except String GatewayInfo) : StoreState × List TauriCall :=
  if jsTrim apiKey = "" then (st, [])
  else if st.runtimeStatus.isInstalled = false then
    (setError st (some "Please wait for the runtime to finish installing."), [])
  else
    let st1 := setError st none
    match setApiKeyResult with
    | Except.error msg =>
        (setGatewayStatus (setError st1 (some msg)) (GatewayStatus.error msg),
         [TauriCall.setApiKeyCall (jsTrim apiKey)])
    | Except.ok _ =>
        let st2 := setGatewayStatus (setApiKeyConfigured st1 true) GatewayStatus.starting
        match startGatewayResult with
        | Except.error msg =>
            (setGatewayStatus (setError st2 (some msg)) (GatewayStatus.error msg),
             [TauriCall.setApiKeyCall (jsTrim apiKey), TauriCall.startGatewayCall])
        | Except.ok info =>
            (setScreen (setGatewayStatus st2 (GatewayStatus.running info)) AppScreen.chat,
             [TauriCall.setApiKeyCall (jsTrim apiKey), TauriCall.startGatewayCall])

/-- `handleInstallRuntime` in Settings.tsx: set downloading at progress 0,
then on a thrown install error set the error variant with its message. -/
def handleInstallRuntime (st : StoreState) (installResult : Except String Unit) : StoreState :=
  let st1 := setRuntimeStatus st (RuntimeStatus.downloading 0)
  match installResult with
  | Except.ok _ => st1
  | Except.error msg => setRuntimeStatus st1 (RuntimeStatus.error msg)

/-- The content the `Loading` component computes from the runtime status
(`getStatusContent`): icon component name, main text, optional subtext, and
the progress bar value when present. -/
structure StatusContent where
  icon : String
  text : String
  subtext : Option String
  progressBar : Option Int
deriving DecidableEq

/-- `getStatusContent` in the Loading component. -/
def getStatusContent (rs : RuntimeStatus) : StatusContent :=
  match rs with
  | RuntimeStatus.checking =>
      { icon := "Loader2", text := "Checking system...", subtext := none,
        progressBar := none }
  | RuntimeStatus.downloading p =>
      { icon := "Download", text := "Setting up (first time only)",
        subtext := some ("Downloading Node.js runtime... " ++ toString p ++ "%"),
        progressBar := some p }
  | RuntimeStatus.installed _ =>
      { icon := "Check", text := "Starting...", subtext := none,
        progressBar := none }
  | RuntimeStatus.error msg =>
      { icon := "AlertCircle", text := "Setup failed", subtext := some msg,
        progressBar := none }

/-- The runtime-status box the Settings component renders when the runtime
is not ready (`!runtimeReady && (...)`): none when installed, otherwise the
icon, title, and optional detail line shown. -/
def settingsRuntimeBox (rs : RuntimeStatus) : Option StatusContent :=
  match rs with
  | RuntimeStatus.installed _ => none
  | RuntimeStatus.downloading p =>
      some { icon := "Download", text := "Setting up...",
             subtext := some ("Downloading runtime (" ++ toString p ++ "%)"),
             progressBar := some p }
  | RuntimeStatus.error msg =>
      some { icon := "AlertCircle", text := "Setup failed", subtext := some msg,
             progressBar := none }
  | RuntimeStatus.checking =>
      some { icon := "Loader2", text := "Checking system...", subtext := none,
             progressBar := none }

/-! ### Desktop theorems -/

/-- `handleSave` never changes the `runtimeStatus` field of the store. -/
theorem handleSave_runtimeStatus (st : StoreState) (apiKey : String)
    (r1 : Except String Unit) (r2 : Except String GatewayInfo) :
    (handleSave st apiKey r1 r2).1.runtimeStatus = st.runtimeStatus := by
  unfold handleSave
  split
  · rfl
  · split
    · rfl
    · cases r1 with
      | error msg => rfl
      | ok u => cases r2 with
        | error msg => rfl
        | ok info => rfl

/-- C5: with a non-empty trimmed key and the runtime installed, if
`tauri.setApiKey` or `tauri.startGateway` throws, `handleSave` sets
`gatewayStatus` to the error variant carrying the thrown message, sets the
`error` field to that message, and leaves the screen unchanged; if both
succeed it sets `gatewayStatus` to running with the returned info and
switches the screen to chat. -/
theorem c5_save_outcome (st : StoreState) (apiKey : String) (v : String)
    (r1 : Except String Unit) (r2 : Except String GatewayInfo)
    (h1 : jsTrim apiKey ≠ "")
    (h2 : st.runtimeStatus = RuntimeStatus.installed v) :
    (∀ msg, r1 = Except.error msg →
      (handleSave st apiKey r1 r2).1.gatewayStatus = GatewayStatus.error msg ∧
      (handleSave st apiKey r1 r2).1.error = some msg ∧
      (handleSave st apiKey r1 r2).1.screen = st.screen) ∧
    (∀ msg, r1 = Except.ok () → r2 = Except.error msg →
      (handleSave st apiKey r1 r2).1.gatewayStatus = GatewayStatus.error msg ∧
      (handleSave st apiKey r1 r2).1.error = some msg ∧
      (handleSave st apiKey r1 r2).1.screen = st.screen) ∧
    (∀ info, r1 = Except.ok () → r2 = Except.ok info →
      (handleSave st apiKey r1 r2).1.gatewayStatus = GatewayStatus.running info ∧
      (handleSave st apiKey r1 r2).1.screen = AppScreen.chat) := by
  have hinst : st.runtimeStatus.isInstalled = true := by
    rw [h2]; rfl
  refine ⟨?_, ?_, ?_⟩
  · intro msg hr1
    subst hr1
    simp [handleSave, h1, hinst, setError, setGatewayStatus]
  · intro msg hr1 hr2
    subst hr1; subst hr2
    simp [handleSave, h1, hinst, setError, setGatewayStatus, setApiKeyConfigured]
  · intro info hr1 hr2
    subst hr1; subst hr2
    simp [handleSave, h1, hinst, setError, setGatewayStatus, setApiKeyConfigured,
      setScreen]

/-- A concrete store state with the runtime installed, for witnesses. -/
def stInstalled : StoreState :=
  { screen := AppScreen.settings, gatewayStatus := GatewayStatus.stopped,
    runtimeStatus := RuntimeStatus.installed "v22.14.0", apiKeyConfigured := false,
    error := none }

/-- Witness for C5: a concrete save where `setApiKey` throws "boom". -/
theorem c5_save_outcome_witness :
    (handleSave stInstalled "sk-test" (Except.error "boom")
        (Except.ok ⟨"http://127.0.0.1:18789", 18789, "tok"⟩)).1.gatewayStatus =
      GatewayStatus.error "boom" ∧
    (handleSave stInstalled "sk-test" (Except.error "boom")
        (Except.ok ⟨"http://127.0.0.1:18789", 18789, "tok"⟩)).1.error = some "boom" ∧
    (handleSave stInstalled "sk-test" (Except.error "boom")
        (Except.ok ⟨"http://127.0.0.1:18789", 18789, "tok"⟩)).1.screen =
      stInstalled.screen :=
  (c5_save_outcome stInstalled "sk-test" "v22.14.0" (Except.error "boom")
    (Except.ok ⟨"http://127.0.0.1:18789", 18789, "tok"⟩) (by decide) rfl).1 "boom" rfl

/-- C6: when the runtime status is the error variant, both the Loading
screen and the Settings runtime box render the contained message string
verbatim. -/
theorem c6_error_verbatim (msg : String) :
    (getStatusContent (RuntimeStatus.error msg)).subtext = some msg ∧
    settingsRuntimeBox (RuntimeStatus.error msg) =
      some { icon := "AlertCircle", text := "Setup failed", subtext := some msg,
             progressBar := none } :=
  ⟨rfl, rfl⟩

/-- C9: unless the trimmed key is non-empty and the runtime is installed,
`handleSave` issues no tauri calls and leaves `gatewayStatus`, `screen`,
`runtimeStatus` and `apiKeyConfigured` unchanged; with an empty trimmed key
it changes nothing at all, and with a non-empty key but the runtime not
installed it only sets the error message. -/
theorem c9_save_guard (st : StoreState) (apiKey : String)
    (r1 : Except String Unit) (r2 : Except String GatewayInfo)
    (h : jsTrim apiKey = "" ∨ st.runtimeStatus.isInstalled = false) :
    (handleSave st apiKey r1 r2).2 = [] ∧
    (handleSave st apiKey r1 r2).1.gatewayStatus = st.gatewayStatus ∧
    (handleSave st apiKey r1 r2).1.screen = st.screen ∧
    (handleSave st apiKey r1 r2).1.runtimeStatus = st.runtimeStatus ∧
    (handleSave st apiKey r1 r2).1.apiKeyConfigured = st.apiKeyConfigured ∧
    (jsTrim apiKey = "" → (handleSave st apiKey r1 r2).1 = st) ∧
    (jsTrim apiKey ≠ "" →
      (handleSave st apiKey r1 r2).1.error =
        some "Please wait for the runtime to finish installing.") := by
  by_cases he : jsTrim apiKey = ""
  · simp [handleSave, he]
  · have hni : st.runtimeStatus.isInstalled = false := by
      rcases h with h | h
      · exact absurd h he
      · exact h
    simp [handleSave, he, hni, setError]

/-- Witness for C9: from the initial state (runtime still checking), a save
with a non-empty key issues no calls and only sets the error message. -/
theorem c9_save_guard_witness :
    (handleSave initialState "sk-key" (Except.ok ()) (Except.error "e")).2 = [] ∧
    (handleSave initialState "sk-key" (Except.ok ()) (Except.error "e")).1.error =
      some "Please wait for the runtime to finish installing." :=
  ⟨(c9_save_guard initialState "sk-key" (Except.ok ()) (Except.error "e")
      (Or.inr rfl)).1,
   (c9_save_guard initialState "sk-key" (Except.ok ()) (Except.error "e")
      (Or.inr rfl)).2.2.2.2.2.2 (by decide)⟩

/-- Modelled from the spec: the desktop-to-gateway bridge (the tauri side,
not under the verified sources) reports runtime install status values;
per the spec's data model, a reported downloading status carries a
progress in the range 0 to 100. -/
def SpecRuntimeReport (rs : RuntimeStatus) : Prop :=
  ∀ p, rs = RuntimeStatus.downloading p → 0 ≤ p ∧ p ≤ 100

/-- Reachable store states: the initial state, and states produced by the
handlers in the sources (`handleInstallRuntime`, `handleSave`), by the
spec-modelled bridge reports, and by the remaining setters at arbitrary
values of their own field. -/
inductive Reachable : StoreState → Prop where
  | init : Reachable initialState
  | installRun {s : StoreState} (r : Except String Unit) :
      Reachable s → Reachable (handleInstallRuntime s r)
  | save {s : StoreState} (apiKey : String) (r1 : Except String Unit)
      (r2 : Except String GatewayInfo) :
      Reachable s → Reachable (handleSave s apiKey r1 r2).1
  | bridgeReport {s : StoreState} {rs : RuntimeStatus} :
      Reachable s → SpecRuntimeReport rs → Reachable (setRuntimeStatus s rs)
  | screenSet {s : StoreState} (sc : AppScreen) :
      Reachable s → Reachable (setScreen s sc)
  | gatewaySet {s : StoreState} (gs : GatewayStatus) :
      Reachable s → Reachable (setGatewayStatus s gs)
  | keyConfiguredSet {s : StoreState} (b : Bool) :
      Reachable s → Reachable (setApiKeyConfigured s b)
  | errorSet {s : StoreState} (e : Option String) :
      Reachable s → Reachable (setError s e)

/-- C7: in every reachable store state, a downloading runtime status
carries a progress between 0 and 100 inclusive. -/
theorem c7_progress_invariant (s : StoreState) (h : Reachable s) :
    ∀ p, s.runtimeStatus = RuntimeStatus.downloading p → 0 ≤ p ∧ p ≤ 100 := by
  induction h with
  | init =>
      intro p hp
      simp [initialState] at hp
  | installRun r _ ih =>
      intro p hp
      cases r with
      | ok u =>
          simp [handleInstallRuntime, setRuntimeStatus] at hp
          rw [← hp]
          exact ⟨le_refl 0, by norm_num⟩
      | error msg =>
          simp [handleInstallRuntime, setRuntimeStatus] at hp
  | save apiKey r1 r2 _ ih =>
      intro p hp
      exact ih p ((handleSave_runtimeStatus _ _ _ _) ▸ hp)
  | bridgeReport _ hspec ih =>
      intro p hp
      exact hspec p hp
  | screenSet sc _ ih =>
      intro p hp
      exact ih p hp
  | gatewaySet gs _ ih =>
      intro p hp
      exact ih p hp
  | keyConfiguredSet b _ ih =>
      intro p hp
      exact ih p hp
  | errorSet e _ ih =>
      intro p hp
      exact ih p hp

/-- Witness for C7: a reachable state with a bridge-reported progress of
50 satisfies the bounds. -/
theorem c7_progress_invariant_witness : (0 : Int) ≤ 50 ∧ (50 : Int) ≤ 100 :=
  c7_progress_invariant (setRuntimeStatus initialState (RuntimeStatus.downloading 50))
    (Reachable.bridgeReport Reachable.init
      (fun p hp => by cases hp; exact ⟨by norm_num, by norm_num⟩))
    50 rfl

/-- C10: each store setter updates only its own field, leaving the other
four fields of the state unchanged. -/
theorem c10_setters_frame (st : StoreState) (sc : AppScreen) (gs : GatewayStatus)
    (rs : RuntimeStatus) (b : Bool) (e : Option String) :
    (setScreen st sc).screen = sc ∧
    (setScreen st sc).gatewayStatus = st.gatewayStatus ∧
    (setScreen st sc).runtimeStatus = st.runtimeStatus ∧
    (setScreen st sc).apiKeyConfigured = st.apiKeyConfigured ∧
    (setScreen st sc).error = st.error ∧
    (setGatewayStatus st gs).gatewayStatus = gs ∧
    (setGatewayStatus st gs).screen = st.screen ∧
    (setGatewayStatus st gs).runtimeStatus = st.runtimeStatus ∧
    (setGatewayStatus st gs).apiKeyConfigured = st.apiKeyConfigured ∧
    (setGatewayStatus st gs).error = st.error ∧
    (setRuntimeStatus st rs).runtimeStatus = rs ∧
    (setRuntimeStatus st rs).screen = st.screen ∧
    (setRuntimeStatus st rs).gatewayStatus = st.gatewayStatus ∧
    (setRuntimeStatus st rs).apiKeyConfigured = st.apiKeyConfigured ∧
    (setRuntimeStatus st rs).error = st.error ∧
    (setApiKeyConfigured st b).apiKeyConfigured = b ∧
    (setApiKeyConfigured st b).screen = st.screen ∧
    (setApiKeyConfigured st b).gatewayStatus = st.gatewayStatus ∧
    (setApiKeyConfigured st b).runtimeStatus = st.runtimeStatus ∧
    (setApiKeyConfigured st b).error = st.error ∧
    (setError st e).error = e ∧
    (setError st e).screen = st.screen ∧
    (setError st e).gatewayStatus = st.gatewayStatus ∧
    (setError st e).runtimeStatus = st.runtimeStatus ∧
    (setError st e).apiKeyConfigured = st.apiKeyConfigured :=
  ⟨rfl, rfl, rfl, rfl, rfl, rfl, rfl, rfl, rfl, rfl, rfl, rfl, rfl, rfl, rfl,
   rfl, rfl, rfl, rfl, rfl, rfl, rfl, rfl, rfl, rfl⟩
